import Mathlib

/-!
Verification of the selenium-mcp server (`src/server.py`): a thin dispatch
layer over a browser-automation engine, with one process-wide session
registry (`state = {"drivers": {}, "current_session": None}`).

Shallow embedding. The registry is `St` (an insertion-ordered association
list standing for the Python dict, plus the nullable current-session id).
The Selenium engine is an oracle `Engine` of response functions: the
embedding never fixes what a launch, wait, click or quit returns — every
claim is proved for all engine behaviours. Each dispatcher operation is a
total Lean function returning `(message, new registry state, trace)`,
where the trace (`List EngineCall`) records every call made into the
engine, in order, so that "no engine call was made" and "the wait
primitive received this timeout" are provable statements. Python
exceptions become `Except String` values (the string is `str(e)`); the
`try ... except Exception as e: return "Error ...: " + str(e)` boundary of
every operation is the `boundary` wrapper applied to the operation's body.
-/

namespace SelMCP

/-- Native locator kinds of `selenium.webdriver.common.by.By`, the values of
`locator_map` in `get_locator`. -/
inductive ByLoc where
  | id
  | cssSelector
  | xpath
  | name
  | tagName
  | className
deriving DecidableEq

/-- The two wait conditions used by the dispatcher:
`EC.presence_of_element_located` and `EC.element_to_be_clickable`. -/
inductive WaitCond where
  | present
  | clickable
deriving DecidableEq

/-- One call into the browser-automation engine (or the filesystem, for the
screenshot write). Driver and element handles are opaque and modelled as
naturals. `wait` carries the timeout in seconds, as handed to
`WebDriverWait(driver, timeout_seconds)`. -/
inductive EngineCall where
  | launch (browser : String) (headless : Bool) (arguments : List String)
  | navigate (driver : Nat) (url : String)
  | wait (driver : Nat) (cond : WaitCond) (loc : ByLoc) (value : String) (timeoutSeconds : ℚ)
  | click (element : Nat)
  | clearField (element : Nat)
  | typeText (element : Nat) (text : String)
  | readText (element : Nat)
  | moveTo (driver element : Nat)
  | dragDrop (driver source target : Nat)
  | doubleClick (driver element : Nat)
  | contextClick (driver element : Nat)
  | keyDownUp (driver : Nat) (key : String)
  | screenshot (driver : Nat)
  | writeFile (path : String) (base64Data : String)
  | quit (driver : Nat)
deriving DecidableEq

/-- The engine oracle: what each engine call returns. `Except.error m` is a
raised exception with `str(e) = m`. The embedding quantifies over this, so
theorems hold for every engine behaviour (launch failures, wait timeouts,
stale elements, failing `quit()`, ...). `writeFileResult` covers
`base64.b64decode` plus `open(path, "wb").write(...)`. -/
structure Engine where
  launchResult : String → Bool → List String → Except String Nat
  navigateResult : Nat → String → Except String Unit
  waitResult : Nat → WaitCond → ByLoc → String → ℚ → Except String Nat
  clickResult : Nat → Except String Unit
  clearResult : Nat → Except String Unit
  sendKeysResult : Nat → String → Except String Unit
  textResult : Nat → Except String String
  moveToResult : Nat → Nat → Except String Unit
  dragDropResult : Nat → Nat → Nat → Except String Unit
  doubleClickResult : Nat → Nat → Except String Unit
  contextClickResult : Nat → Nat → Except String Unit
  keyResult : Nat → String → Except String Unit
  screenshotResult : Nat → Except String String
  writeFileResult : String → String → Except String Unit
  quitResult : Nat → Except String Unit

/-- The process-wide registry:
`state = {"drivers": {...}, "current_session": ...}`. The dict is an
association list in insertion order; keys are unique by construction
(`insertD` updates in place). -/
structure St where
  drivers : List (String × Nat)
  current : Option String
deriving DecidableEq

/-- `state` at process start: empty dict, `current_session = None`. -/
def initState : St := ⟨[], none⟩

/-- Python dict lookup `d[k]` / membership `k in d`. -/
def lookupD {α : Type} : List (String × α) → String → Option α
  | [], _ => none
  | p :: rest, k => if p.1 = k then some p.2 else lookupD rest k

/-- Python dict assignment `d[k] = v`: replaces in place when the key
exists, appends otherwise. -/
def insertD {α : Type} : List (String × α) → String → α → List (String × α)
  | [], k, v => [(k, v)]
  | p :: rest, k, v => if p.1 = k then (k, v) :: rest else p :: insertD rest k v

/-- Python `del d[k]`. -/
def eraseD {α : Type} (l : List (String × α)) (k : String) : List (String × α) :=
  l.filter (fun p => ¬ p.1 = k)

/-- `get_driver()`: raises `Exception("No active browser session")` when
`state["current_session"] not in state["drivers"]` (so also when the
pointer is `None`), else returns the driver. -/
def get_driver (s : St) : Except String Nat :=
  match s.current with
  | none => Except.error "No active browser session"
  | some sid =>
    match lookupD s.drivers sid with
    | none => Except.error "No active browser session"
    | some d => Except.ok d

/-- `generate_session_id(browser)`: the browser kind, an underscore and
`int(time.time() * 1000)`, the wall clock in milliseconds (`tNow`). -/
def generate_session_id (browser : String) (tNow : Nat) : String :=
  browser ++ "_" ++ toString tNow

/-- `locator_map` of `get_locator`. -/
def locator_map : List (String × ByLoc) :=
  [("id", ByLoc.id), ("css", ByLoc.cssSelector), ("xpath", ByLoc.xpath),
   ("name", ByLoc.name), ("tag", ByLoc.tagName), ("class", ByLoc.className)]

/-- Python `str.lower()`, as a per-character map over the string's
characters (`String.toLower` computes the same string, but its
`String.mapAux` recursion does not reduce in the kernel, so the
character-list form is used for the embedding). -/
def pyLower (s : String) : String := ⟨s.data.map Char.toLower⟩

/-- `get_locator(by)`: looks `by.lower()` up in `locator_map`, raising
`ValueError(f"Unsupported locator strategy: ...")` when absent. -/
def get_locator (by_ : String) : Except String ByLoc :=
  match lookupD locator_map (pyLower by_) with
  | none => Except.error ("Unsupported locator strategy: " ++ by_)
  | some loc => Except.ok loc

/-- What an operation's `try`-body produces: the raised exception or the
success message, the registry state as left by the body, and the engine
calls made. -/
abbrev BodyRes := Except String String × St × List EngineCall

/-- A full operation's result: message, registry state, engine calls. -/
abbrev OpResult := String × St × List EngineCall

/-- The `try ... except Exception as e: return head + str(e)` boundary every
dispatcher operation wraps its body in. -/
def boundary (head : String) (r : BodyRes) : OpResult :=
  match r with
  | (Except.ok m, s, tr) => (m, s, tr)
  | (Except.error e, s, tr) => (head ++ e, s, tr)

/-- Does a result message carry the error marker, i.e. start with
`"Error"`? -/
def hasErrHead (m : String) : Bool := m.data.take 5 = "Error".data

/-- Body of `start_browser(browser, headless=False, arguments=None)`.
Validates the browser kind before anything else, launches the engine
(the `ChromeOptions`/`FirefoxOptions` construction is engine-side
configuration, carried on the `launch` call), then registers the session
and makes it current. `arguments` is `Option` for Python's `None` default;
`if arguments:` treats `None` and `[]` alike, as `getD []` does. -/
def start_browser_body (eng : Engine) (tNow : Nat) (browser : String) (headless : Bool)
    (arguments : Option (List String)) (s : St) : BodyRes :=
  if browser = "chrome" ∨ browser = "firefox" then
    match eng.launchResult browser headless (arguments.getD []) with
    | Except.error e => (Except.error e, s, [EngineCall.launch browser headless (arguments.getD [])])
    | Except.ok driver =>
      let session_id := generate_session_id browser tNow
      (Except.ok ("Browser started with session_id: " ++ session_id),
       ⟨insertD s.drivers session_id driver, some session_id⟩,
       [EngineCall.launch browser headless (arguments.getD [])])
  else
    (Except.error "Unsupported browser type. Use 'chrome' or 'firefox'.", s, [])

/-- `start_browser`, boundary included. -/
def start_browser (eng : Engine) (tNow : Nat) (browser : String) (headless : Bool)
    (arguments : Option (List String)) (s : St) : OpResult :=
  boundary "Error starting browser: " (start_browser_body eng tNow browser headless arguments s)

/-- Body of `navigate(url)`. -/
def navigate_body (eng : Engine) (url : String) (s : St) : BodyRes :=
  match get_driver s with
  | Except.error e => (Except.error e, s, [])
  | Except.ok driver =>
    match eng.navigateResult driver url with
    | Except.error e => (Except.error e, s, [EngineCall.navigate driver url])
    | Except.ok _ => (Except.ok ("Navigated to " ++ url), s, [EngineCall.navigate driver url])

/-- `navigate`, boundary included. -/
def navigate (eng : Engine) (url : String) (s : St) : OpResult :=
  boundary "Error navigating: " (navigate_body eng url s)

/-- Body of `find_element(by, value, timeout=10000)`. Python evaluates
`get_locator(by)` while building the argument of `.until(...)`, so an
unsupported strategy raises before the wait is entered. -/
def find_element_body (eng : Engine) (by_ value : String) (timeout : Int) (s : St) : BodyRes :=
  match get_driver s with
  | Except.error e => (Except.error e, s, [])
  | Except.ok driver =>
    let timeout_seconds : ℚ := (timeout : ℚ) / 1000
    match get_locator by_ with
    | Except.error e => (Except.error e, s, [])
    | Except.ok loc =>
      match eng.waitResult driver WaitCond.present loc value timeout_seconds with
      | Except.error e =>
        (Except.error e, s, [EngineCall.wait driver WaitCond.present loc value timeout_seconds])
      | Except.ok _element =>
        (Except.ok ("Element found using " ++ by_ ++ "='" ++ value ++ "'"), s,
         [EngineCall.wait driver WaitCond.present loc value timeout_seconds])

/-- `find_element`, boundary included. -/
def find_element (eng : Engine) (by_ value : String) (timeout : Int) (s : St) : OpResult :=
  boundary "Error finding element: " (find_element_body eng by_ value timeout s)

/-- Body of `click_element(by, value, timeout=10000)`: waits for
clickability, then clicks. -/
def click_element_body (eng : Engine) (by_ value : String) (timeout : Int) (s : St) : BodyRes :=
  match get_driver s with
  | Except.error e => (Except.error e, s, [])
  | Except.ok driver =>
    let timeout_seconds : ℚ := (timeout : ℚ) / 1000
    match get_locator by_ with
    | Except.error e => (Except.error e, s, [])
    | Except.ok loc =>
      match eng.waitResult driver WaitCond.clickable loc value timeout_seconds with
      | Except.error e =>
        (Except.error e, s, [EngineCall.wait driver WaitCond.clickable loc value timeout_seconds])
      | Except.ok element =>
        match eng.clickResult element with
        | Except.error e =>
          (Except.error e, s,
           [EngineCall.wait driver WaitCond.clickable loc value timeout_seconds,
            EngineCall.click element])
        | Except.ok _ =>
          (Except.ok ("Element clicked using " ++ by_ ++ "='" ++ value ++ "'"), s,
           [EngineCall.wait driver WaitCond.clickable loc value timeout_seconds,
            EngineCall.click element])

/-- `click_element`, boundary included. -/
def click_element (eng : Engine) (by_ value : String) (timeout : Int) (s : St) : OpResult :=
  boundary "Error clicking element: " (click_element_body eng by_ value timeout s)

/-- Body of `send_keys(by, value, text, timeout=10000)`: waits for
presence, unconditionally clears the field, then types. -/
def send_keys_body (eng : Engine) (by_ value text : String) (timeout : Int) (s : St) : BodyRes :=
  match get_driver s with
  | Except.error e => (Except.error e, s, [])
  | Except.ok driver =>
    let timeout_seconds : ℚ := (timeout : ℚ) / 1000
    match get_locator by_ with
    | Except.error e => (Except.error e, s, [])
    | Except.ok loc =>
      match eng.waitResult driver WaitCond.present loc value timeout_seconds with
      | Except.error e =>
        (Except.error e, s, [EngineCall.wait driver WaitCond.present loc value timeout_seconds])
      | Except.ok element =>
        match eng.clearResult element with
        | Except.error e =>
          (Except.error e, s,
           [EngineCall.wait driver WaitCond.present loc value timeout_seconds,
            EngineCall.clearField element])
        | Except.ok _ =>
          match eng.sendKeysResult element text with
          | Except.error e =>
            (Except.error e, s,
             [EngineCall.wait driver WaitCond.present loc value timeout_seconds,
              EngineCall.clearField element, EngineCall.typeText element text])
          | Except.ok _ =>
            (Except.ok ("Text '" ++ text ++ "' entered into element using " ++ by_ ++ "='" ++
               value ++ "'"), s,
             [EngineCall.wait driver WaitCond.present loc value timeout_seconds,
              EngineCall.clearField element, EngineCall.typeText element text])

/-- `send_keys`, boundary included. -/
def send_keys (eng : Engine) (by_ value text : String) (timeout : Int) (s : St) : OpResult :=
  boundary "Error entering text: " (send_keys_body eng by_ value text timeout s)

/-- Body of `get_element_text(by, value, timeout=10000)`. -/
def get_element_text_body (eng : Engine) (by_ value : String) (timeout : Int) (s : St) : BodyRes :=
  match get_driver s with
  | Except.error e => (Except.error e, s, [])
  | Except.ok driver =>
    let timeout_seconds : ℚ := (timeout : ℚ) / 1000
    match get_locator by_ with
    | Except.error e => (Except.error e, s, [])
    | Except.ok loc =>
      match eng.waitResult driver WaitCond.present loc value timeout_seconds with
      | Except.error e =>
        (Except.error e, s, [EngineCall.wait driver WaitCond.present loc value timeout_seconds])
      | Except.ok element =>
        match eng.textResult element with
        | Except.error e =>
          (Except.error e, s,
           [EngineCall.wait driver WaitCond.present loc value timeout_seconds,
            EngineCall.readText element])
        | Except.ok text =>
          (Except.ok ("Text of element using " ++ by_ ++ "='" ++ value ++ "': " ++ text), s,
           [EngineCall.wait driver WaitCond.present loc value timeout_seconds,
            EngineCall.readText element])

/-- `get_element_text`, boundary included. -/
def get_element_text (eng : Engine) (by_ value : String) (timeout : Int) (s : St) : OpResult :=
  boundary "Error getting element text: " (get_element_text_body eng by_ value timeout s)

/-- Body of `hover(by, value, timeout=10000)`:
`ActionChains(driver).move_to_element(element).perform()`. -/
def hover_body (eng : Engine) (by_ value : String) (timeout : Int) (s : St) : BodyRes :=
  match get_driver s with
  | Except.error e => (Except.error e, s, [])
  | Except.ok driver =>
    let timeout_seconds : ℚ := (timeout : ℚ) / 1000
    match get_locator by_ with
    | Except.error e => (Except.error e, s, [])
    | Except.ok loc =>
      match eng.waitResult driver WaitCond.present loc value timeout_seconds with
      | Except.error e =>
        (Except.error e, s, [EngineCall.wait driver WaitCond.present loc value timeout_seconds])
      | Except.ok element =>
        match eng.moveToResult driver element with
        | Except.error e =>
          (Except.error e, s,
           [EngineCall.wait driver WaitCond.present loc value timeout_seconds,
            EngineCall.moveTo driver element])
        | Except.ok _ =>
          (Except.ok ("Hovered over element using " ++ by_ ++ "='" ++ value ++ "'"), s,
           [EngineCall.wait driver WaitCond.present loc value timeout_seconds,
            EngineCall.moveTo driver element])

/-- `hover`, boundary included. -/
def hover (eng : Engine) (by_ value : String) (timeout : Int) (s : St) : OpResult :=
  boundary "Error hovering over element: " (hover_body eng by_ value timeout s)

/-- Body of `drag_and_drop(by, value, target_by, target_value,
timeout=10000)`: waits for the source, then (evaluating
`get_locator(target_by)` only at that point) waits for the target with the
same `timeout_seconds`, then performs the drag. -/
def drag_and_drop_body (eng : Engine) (by_ value target_by target_value : String)
    (timeout : Int) (s : St) : BodyRes :=
  match get_driver s with
  | Except.error e => (Except.error e, s, [])
  | Except.ok driver =>
    let timeout_seconds : ℚ := (timeout : ℚ) / 1000
    match get_locator by_ with
    | Except.error e => (Except.error e, s, [])
    | Except.ok loc =>
      match eng.waitResult driver WaitCond.present loc value timeout_seconds with
      | Except.error e =>
        (Except.error e, s, [EngineCall.wait driver WaitCond.present loc value timeout_seconds])
      | Except.ok source_element =>
        match get_locator target_by with
        | Except.error e =>
          (Except.error e, s, [EngineCall.wait driver WaitCond.present loc value timeout_seconds])
        | Except.ok target_loc =>
          match eng.waitResult driver WaitCond.present target_loc target_value timeout_seconds with
          | Except.error e =>
            (Except.error e, s,
             [EngineCall.wait driver WaitCond.present loc value timeout_seconds,
              EngineCall.wait driver WaitCond.present target_loc target_value timeout_seconds])
          | Except.ok target_element =>
            match eng.dragDropResult driver source_element target_element with
            | Except.error e =>
              (Except.error e, s,
               [EngineCall.wait driver WaitCond.present loc value timeout_seconds,
                EngineCall.wait driver WaitCond.present target_loc target_value timeout_seconds,
                EngineCall.dragDrop driver source_element target_element])
            | Except.ok _ =>
              (Except.ok ("Drag and drop completed from " ++ by_ ++ "='" ++ value ++ "' to " ++
                 target_by ++ "='" ++ target_value ++ "'"), s,
               [EngineCall.wait driver WaitCond.present loc value timeout_seconds,
                EngineCall.wait driver WaitCond.present target_loc target_value timeout_seconds,
                EngineCall.dragDrop driver source_element target_element])

/-- `drag_and_drop`, boundary included. -/
def drag_and_drop (eng : Engine) (by_ value target_by target_value : String)
    (timeout : Int) (s : St) : OpResult :=
  boundary "Error performing drag and drop: "
    (drag_and_drop_body eng by_ value target_by target_value timeout s)

/-- Body of `double_click(by, value, timeout=10000)`:
`ActionChains(driver).double_click(element).perform()`. -/
def double_click_body (eng : Engine) (by_ value : String) (timeout : Int) (s : St) : BodyRes :=
  match get_driver s with
  | Except.error e => (Except.error e, s, [])
  | Except.ok driver =>
    let timeout_seconds : ℚ := (timeout : ℚ) / 1000
    match get_locator by_ with
    | Except.error e => (Except.error e, s, [])
    | Except.ok loc =>
      match eng.waitResult driver WaitCond.present loc value timeout_seconds with
      | Except.error e =>
        (Except.error e, s, [EngineCall.wait driver WaitCond.present loc value timeout_seconds])
      | Except.ok element =>
        match eng.doubleClickResult driver element with
        | Except.error e =>
          (Except.error e, s,
           [EngineCall.wait driver WaitCond.present loc value timeout_seconds,
            EngineCall.doubleClick driver element])
        | Except.ok _ =>
          (Except.ok ("Double click performed on element using " ++ by_ ++ "='" ++ value ++ "'"),
           s,
           [EngineCall.wait driver WaitCond.present loc value timeout_seconds,
            EngineCall.doubleClick driver element])

/-- `double_click`, boundary included. -/
def double_click (eng : Engine) (by_ value : String) (timeout : Int) (s : St) : OpResult :=
  boundary "Error performing double click: " (double_click_body eng by_ value timeout s)

/-- Body of `right_click(by, value, timeout=10000)`:
`ActionChains(driver).context_click(element).perform()`. -/
def right_click_body (eng : Engine) (by_ value : String) (timeout : Int) (s : St) : BodyRes :=
  match get_driver s with
  | Except.error e => (Except.error e, s, [])
  | Except.ok driver =>
    let timeout_seconds : ℚ := (timeout : ℚ) / 1000
    match get_locator by_ with
    | Except.error e => (Except.error e, s, [])
    | Except.ok loc =>
      match eng.waitResult driver WaitCond.present loc value timeout_seconds with
      | Except.error e =>
        (Except.error e, s, [EngineCall.wait driver WaitCond.present loc value timeout_seconds])
      | Except.ok element =>
        match eng.contextClickResult driver element with
        | Except.error e =>
          (Except.error e, s,
           [EngineCall.wait driver WaitCond.present loc value timeout_seconds,
            EngineCall.contextClick driver element])
        | Except.ok _ =>
          (Except.ok ("Right click performed on element using " ++ by_ ++ "='" ++ value ++ "'"),
           s,
           [EngineCall.wait driver WaitCond.present loc value timeout_seconds,
            EngineCall.contextClick driver element])

/-- `right_click`, boundary included. -/
def right_click (eng : Engine) (by_ value : String) (timeout : Int) (s : St) : OpResult :=
  boundary "Error performing right click: " (right_click_body eng by_ value timeout s)

/-- Body of `press_key(key)`:
`ActionChains(driver).key_down(key).key_up(key).perform()`. No locator. -/
def press_key_body (eng : Engine) (key : String) (s : St) : BodyRes :=
  match get_driver s with
  | Except.error e => (Except.error e, s, [])
  | Except.ok driver =>
    match eng.keyResult driver key with
    | Except.error e => (Except.error e, s, [EngineCall.keyDownUp driver key])
    | Except.ok _ =>
      (Except.ok ("Key '" ++ key ++ "' pressed"), s, [EngineCall.keyDownUp driver key])

/-- `press_key`, boundary included. -/
def press_key (eng : Engine) (key : String) (s : St) : OpResult :=
  boundary "Error pressing key: " (press_key_body eng key s)

/-- Body of `upload_file(by, value, file_path, timeout=10000)`: waits for
presence, then `element.send_keys(file_path)` — the same engine primitive
`send_keys` uses for text. -/
def upload_file_body (eng : Engine) (by_ value file_path : String) (timeout : Int)
    (s : St) : BodyRes :=
  match get_driver s with
  | Except.error e => (Except.error e, s, [])
  | Except.ok driver =>
    let timeout_seconds : ℚ := (timeout : ℚ) / 1000
    match get_locator by_ with
    | Except.error e => (Except.error e, s, [])
    | Except.ok loc =>
      match eng.waitResult driver WaitCond.present loc value timeout_seconds with
      | Except.error e =>
        (Except.error e, s, [EngineCall.wait driver WaitCond.present loc value timeout_seconds])
      | Except.ok element =>
        match eng.sendKeysResult element file_path with
        | Except.error e =>
          (Except.error e, s,
           [EngineCall.wait driver WaitCond.present loc value timeout_seconds,
            EngineCall.typeText element file_path])
        | Except.ok _ =>
          (Except.ok ("File upload initiated using " ++ by_ ++ "='" ++ value ++ "'"), s,
           [EngineCall.wait driver WaitCond.present loc value timeout_seconds,
            EngineCall.typeText element file_path])

/-- `upload_file`, boundary included. -/
def upload_file (eng : Engine) (by_ value file_path : String) (timeout : Int)
    (s : St) : OpResult :=
  boundary "Error uploading file: " (upload_file_body eng by_ value file_path timeout s)

/-- Body of `take_screenshot(output_path=None)`. `if output_path:` is
Python truthiness: `None` and `""` both take the inline-base64 branch.
`writeFileResult` stands for `base64.b64decode` plus the `open`/`write`. -/
def take_screenshot_body (eng : Engine) (output_path : Option String) (s : St) : BodyRes :=
  match get_driver s with
  | Except.error e => (Except.error e, s, [])
  | Except.ok driver =>
    match eng.screenshotResult driver with
    | Except.error e => (Except.error e, s, [EngineCall.screenshot driver])
    | Except.ok screenshot =>
      match output_path with
      | some p =>
        if p ≠ "" then
          match eng.writeFileResult p screenshot with
          | Except.error e =>
            (Except.error e, s, [EngineCall.screenshot driver, EngineCall.writeFile p screenshot])
          | Except.ok _ =>
            (Except.ok ("Screenshot saved to " ++ p), s,
             [EngineCall.screenshot driver, EngineCall.writeFile p screenshot])
        else
          (Except.ok ("Screenshot captured as base64: " ++ screenshot), s,
           [EngineCall.screenshot driver])
      | none =>
        (Except.ok ("Screenshot captured as base64: " ++ screenshot), s,
         [EngineCall.screenshot driver])

/-- `take_screenshot`, boundary included. -/
def take_screenshot (eng : Engine) (output_path : Option String) (s : St) : OpResult :=
  boundary "Error taking screenshot: " (take_screenshot_body eng output_path s)

/-- Body of `close_session()` (the source defines it twice, identically;
modelled once). `get_driver` is inlined so the session id it read through
is in scope for the `del`: quit the driver, delete the entry, null the
pointer. A failing `quit()` raises before any registry mutation. -/
def close_session_body (eng : Engine) (s : St) : BodyRes :=
  match s.current with
  | none => (Except.error "No active browser session", s, [])
  | some session_id =>
    match lookupD s.drivers session_id with
    | none => (Except.error "No active browser session", s, [])
    | some driver =>
      match eng.quitResult driver with
      | Except.error e => (Except.error e, s, [EngineCall.quit driver])
      | Except.ok _ =>
        (Except.ok ("Browser session " ++ session_id ++ " closed"),
         ⟨eraseD s.drivers session_id, none⟩, [EngineCall.quit driver])

/-- `close_session`, boundary included. -/
def close_session (eng : Engine) (s : St) : OpResult :=
  boundary "Error closing session: " (close_session_body eng s)

/-- `cleanup()`: iterates every registered session, attempts `quit()` —
the per-session `try/except` prints and swallows the error, so both match
arms record the attempt and discard the outcome — then
`state["drivers"].clear()` and `state["current_session"] = None`. Not a
remote tool; runs at process shutdown. -/
def cleanup (eng : Engine) (s : St) : St × List EngineCall :=
  let tr := s.drivers.foldl
    (fun acc p =>
      match eng.quitResult p.2 with
      | Except.ok _ => acc ++ [EngineCall.quit p.2]
      | Except.error _ => acc ++ [EngineCall.quit p.2])
    []
  (⟨[], none⟩, tr)

/-- One invocation of a remote dispatcher operation, arguments included.
An `Engine` rides along on each constructor (the engine's behaviour at
that call), and `tNow` on `startOp` is the wall clock in milliseconds. A
`none` timeout is Python's unspecified argument; `dispatch` fills in the
source's default `10000`. -/
inductive Op where
  | startOp (eng : Engine) (tNow : Nat) (browser : String) (headless : Bool)
      (arguments : Option (List String))
  | navigateOp (eng : Engine) (url : String)
  | findOp (eng : Engine) (by_ value : String) (timeout : Option Int)
  | clickOp (eng : Engine) (by_ value : String) (timeout : Option Int)
  | sendKeysOp (eng : Engine) (by_ value text : String) (timeout : Option Int)
  | getTextOp (eng : Engine) (by_ value : String) (timeout : Option Int)
  | hoverOp (eng : Engine) (by_ value : String) (timeout : Option Int)
  | dragOp (eng : Engine) (by_ value target_by target_value : String) (timeout : Option Int)
  | doubleClickOp (eng : Engine) (by_ value : String) (timeout : Option Int)
  | rightClickOp (eng : Engine) (by_ value : String) (timeout : Option Int)
  | pressKeyOp (eng : Engine) (key : String)
  | uploadOp (eng : Engine) (by_ value file_path : String) (timeout : Option Int)
  | screenshotOp (eng : Engine) (output_path : Option String)
  | closeOp (eng : Engine)

/-- Run one dispatcher operation against the registry. Total: every
invocation yields a text message, the next registry state and the trace of
engine calls. -/
def dispatch (op : Op) (s : St) : OpResult :=
  match op with
  | Op.startOp eng tNow browser headless arguments =>
    start_browser eng tNow browser headless arguments s
  | Op.navigateOp eng url => navigate eng url s
  | Op.findOp eng by_ value timeout => find_element eng by_ value (timeout.getD 10000) s
  | Op.clickOp eng by_ value timeout => click_element eng by_ value (timeout.getD 10000) s
  | Op.sendKeysOp eng by_ value text timeout =>
    send_keys eng by_ value text (timeout.getD 10000) s
  | Op.getTextOp eng by_ value timeout => get_element_text eng by_ value (timeout.getD 10000) s
  | Op.hoverOp eng by_ value timeout => hover eng by_ value (timeout.getD 10000) s
  | Op.dragOp eng by_ value target_by target_value timeout =>
    drag_and_drop eng by_ value target_by target_value (timeout.getD 10000) s
  | Op.doubleClickOp eng by_ value timeout => double_click eng by_ value (timeout.getD 10000) s
  | Op.rightClickOp eng by_ value timeout => right_click eng by_ value (timeout.getD 10000) s
  | Op.pressKeyOp eng key => press_key eng key s
  | Op.uploadOp eng by_ value file_path timeout =>
    upload_file eng by_ value file_path (timeout.getD 10000) s
  | Op.screenshotOp eng output_path => take_screenshot eng output_path s
  | Op.closeOp eng => close_session eng s

/-- The `try`-body of an operation, before its `except` boundary. -/
def bodyOf (op : Op) (s : St) : BodyRes :=
  match op with
  | Op.startOp eng tNow browser headless arguments =>
    start_browser_body eng tNow browser headless arguments s
  | Op.navigateOp eng url => navigate_body eng url s
  | Op.findOp eng by_ value timeout => find_element_body eng by_ value (timeout.getD 10000) s
  | Op.clickOp eng by_ value timeout => click_element_body eng by_ value (timeout.getD 10000) s
  | Op.sendKeysOp eng by_ value text timeout =>
    send_keys_body eng by_ value text (timeout.getD 10000) s
  | Op.getTextOp eng by_ value timeout =>
    get_element_text_body eng by_ value (timeout.getD 10000) s
  | Op.hoverOp eng by_ value timeout => hover_body eng by_ value (timeout.getD 10000) s
  | Op.dragOp eng by_ value target_by target_value timeout =>
    drag_and_drop_body eng by_ value target_by target_value (timeout.getD 10000) s
  | Op.doubleClickOp eng by_ value timeout =>
    double_click_body eng by_ value (timeout.getD 10000) s
  | Op.rightClickOp eng by_ value timeout => right_click_body eng by_ value (timeout.getD 10000) s
  | Op.pressKeyOp eng key => press_key_body eng key s
  | Op.uploadOp eng by_ value file_path timeout =>
    upload_file_body eng by_ value file_path (timeout.getD 10000) s
  | Op.screenshotOp eng output_path => take_screenshot_body eng output_path s
  | Op.closeOp eng => close_session_body eng s

/-- The error message head of each operation's `except` clause. -/
def errHead : Op → String
  | Op.startOp _ _ _ _ _ => "Error starting browser: "
  | Op.navigateOp _ _ => "Error navigating: "
  | Op.findOp _ _ _ _ => "Error finding element: "
  | Op.clickOp _ _ _ _ => "Error clicking element: "
  | Op.sendKeysOp _ _ _ _ _ => "Error entering text: "
  | Op.getTextOp _ _ _ _ => "Error getting element text: "
  | Op.hoverOp _ _ _ _ => "Error hovering over element: "
  | Op.dragOp _ _ _ _ _ _ => "Error performing drag and drop: "
  | Op.doubleClickOp _ _ _ _ => "Error performing double click: "
  | Op.rightClickOp _ _ _ _ => "Error performing right click: "
  | Op.pressKeyOp _ _ => "Error pressing key: "
  | Op.uploadOp _ _ _ _ _ => "Error uploading file: "
  | Op.screenshotOp _ _ => "Error taking screenshot: "
  | Op.closeOp _ => "Error closing session: "

/-- The locator-taking operations; for `drag_and_drop`, `stratOf` is the
source strategy `by`. -/
def isLocOp : Op → Bool
  | Op.findOp _ _ _ _ => true
  | Op.clickOp _ _ _ _ => true
  | Op.sendKeysOp _ _ _ _ _ => true
  | Op.getTextOp _ _ _ _ => true
  | Op.hoverOp _ _ _ _ => true
  | Op.dragOp _ _ _ _ _ _ => true
  | Op.doubleClickOp _ _ _ _ => true
  | Op.rightClickOp _ _ _ _ => true
  | Op.uploadOp _ _ _ _ _ => true
  | _ => false

/-- The strategy argument `by` of a locator-taking operation. -/
def stratOf : Op → String
  | Op.findOp _ by_ _ _ => by_
  | Op.clickOp _ by_ _ _ => by_
  | Op.sendKeysOp _ by_ _ _ _ => by_
  | Op.getTextOp _ by_ _ _ => by_
  | Op.hoverOp _ by_ _ _ => by_
  | Op.dragOp _ by_ _ _ _ _ => by_
  | Op.doubleClickOp _ by_ _ _ => by_
  | Op.rightClickOp _ by_ _ _ => by_
  | Op.uploadOp _ by_ _ _ _ => by_
  | _ => ""

/-- The operations that take a `timeout` argument (milliseconds,
default 10000). -/
def isTimedOp : Op → Bool
  | Op.findOp _ _ _ _ => true
  | Op.clickOp _ _ _ _ => true
  | Op.sendKeysOp _ _ _ _ _ => true
  | Op.getTextOp _ _ _ _ => true
  | Op.hoverOp _ _ _ _ => true
  | Op.dragOp _ _ _ _ _ _ => true
  | Op.doubleClickOp _ _ _ _ => true
  | Op.rightClickOp _ _ _ _ => true
  | Op.uploadOp _ _ _ _ _ => true
  | _ => false

/-- The `timeout` argument of an operation, `none` when unspecified (or
when the operation takes none). -/
def timeoutOf : Op → Option Int
  | Op.findOp _ _ _ t => t
  | Op.clickOp _ _ _ t => t
  | Op.sendKeysOp _ _ _ _ t => t
  | Op.getTextOp _ _ _ t => t
  | Op.hoverOp _ _ _ t => t
  | Op.dragOp _ _ _ _ _ t => t
  | Op.doubleClickOp _ _ _ t => t
  | Op.rightClickOp _ _ _ t => t
  | Op.uploadOp _ _ _ _ t => t
  | _ => none

/-- The same operation with its `timeout` argument replaced. -/
def withTimeout (op : Op) (t : Option Int) : Op :=
  match op with
  | Op.findOp eng by_ value _ => Op.findOp eng by_ value t
  | Op.clickOp eng by_ value _ => Op.clickOp eng by_ value t
  | Op.sendKeysOp eng by_ value text _ => Op.sendKeysOp eng by_ value text t
  | Op.getTextOp eng by_ value _ => Op.getTextOp eng by_ value t
  | Op.hoverOp eng by_ value _ => Op.hoverOp eng by_ value t
  | Op.dragOp eng by_ value target_by target_value _ =>
    Op.dragOp eng by_ value target_by target_value t
  | Op.doubleClickOp eng by_ value _ => Op.doubleClickOp eng by_ value t
  | Op.rightClickOp eng by_ value _ => Op.rightClickOp eng by_ value t
  | Op.uploadOp eng by_ value file_path _ => Op.uploadOp eng by_ value file_path t
  | other => other

/-- The registry state after a sequence of dispatcher operations. -/
def run (ops : List Op) (s : St) : St :=
  ops.foldl (fun s op => (dispatch op s).2.1) s

/-- The registry invariant: a non-null current-session pointer is a key of
the session mapping. -/
def Inv (s : St) : Prop :=
  match s.current with
  | none => True
  | some sid => (lookupD s.drivers sid).isSome = true

/-- A concrete deterministic engine for witness evaluations: every call
succeeds, launches hand out driver 0, waits element 7. -/
def okEngine : Engine where
  launchResult := fun _ _ _ => Except.ok 0
  navigateResult := fun _ _ => Except.ok ()
  waitResult := fun _ _ _ _ _ => Except.ok 7
  clickResult := fun _ => Except.ok ()
  clearResult := fun _ => Except.ok ()
  sendKeysResult := fun _ _ => Except.ok ()
  textResult := fun _ => Except.ok "hello"
  moveToResult := fun _ _ => Except.ok ()
  dragDropResult := fun _ _ _ => Except.ok ()
  doubleClickResult := fun _ _ => Except.ok ()
  contextClickResult := fun _ _ => Except.ok ()
  keyResult := fun _ _ => Except.ok ()
  screenshotResult := fun _ => Except.ok "aW1n"
  writeFileResult := fun _ _ => Except.ok ()
  quitResult := fun _ => Except.ok ()

/-- A concrete engine whose every call fails (`quit()` included). -/
def failEngine : Engine where
  launchResult := fun _ _ _ => Except.error "boom"
  navigateResult := fun _ _ => Except.error "boom"
  waitResult := fun _ _ _ _ _ => Except.error "boom"
  clickResult := fun _ => Except.error "boom"
  clearResult := fun _ => Except.error "boom"
  sendKeysResult := fun _ _ => Except.error "boom"
  textResult := fun _ => Except.error "boom"
  moveToResult := fun _ _ => Except.error "boom"
  dragDropResult := fun _ _ _ => Except.error "boom"
  doubleClickResult := fun _ _ => Except.error "boom"
  contextClickResult := fun _ _ => Except.error "boom"
  keyResult := fun _ _ => Except.error "boom"
  screenshotResult := fun _ => Except.error "boom"
  writeFileResult := fun _ _ => Except.error "boom"
  quitResult := fun _ => Except.error "boom"

/-- A registry holding one chrome session (driver 0), current. -/
def oneSessionSt : St := ⟨[("chrome_5", 0)], some "chrome_5"⟩

/-- Every wait event in a trace received exactly `t / 1000` seconds, `t`
the operation's timeout in milliseconds. -/
def waitSecondsOK (t : Int) (tr : List EngineCall) : Prop :=
  ∀ d c loc v q, EngineCall.wait d c loc v q ∈ tr → q = (t : ℚ) / 1000

theorem boundary_st (head : String) (r : BodyRes) : (boundary head r).2.1 = r.2.1 := by
  obtain ⟨a, s, tr⟩ := r
  cases a <;> rfl

theorem boundary_tr (head : String) (r : BodyRes) : (boundary head r).2.2 = r.2.2 := by
  obtain ⟨a, s, tr⟩ := r
  cases a <;> rfl

theorem dispatch_eq_boundary (op : Op) (s : St) :
    dispatch op s = boundary (errHead op) (bodyOf op s) := by
  cases op <;> rfl

theorem lookupD_insertD_self {α : Type} (l : List (String × α)) (k : String) (v : α) :
    lookupD (insertD l k v) k = some v := by
  induction l with
  | nil => simp [insertD, lookupD]
  | cons p rest ih =>
    by_cases h : p.1 = k
    · simp [insertD, lookupD, h]
    · simp [insertD, lookupD, h, ih]

theorem insertD_of_fresh {α : Type} (l : List (String × α)) (k : String) (v : α)
    (h : lookupD l k = none) : insertD l k v = l ++ [(k, v)] := by
  induction l with
  | nil => rfl
  | cons p rest ih =>
    by_cases hp : p.1 = k
    · simp [lookupD, hp] at h
    · simp [lookupD, hp] at h
      simp [insertD, hp, ih h]

theorem navigate_body_st (eng : Engine) (url : String) (s : St) :
    (navigate_body eng url s).2.1 = s := by
  unfold navigate_body
  repeat' split
  all_goals rfl

theorem find_element_body_st (eng : Engine) (by_ value : String) (timeout : Int) (s : St) :
    (find_element_body eng by_ value timeout s).2.1 = s := by
  unfold find_element_body
  dsimp only
  repeat' split
  all_goals rfl

theorem click_element_body_st (eng : Engine) (by_ value : String) (timeout : Int) (s : St) :
    (click_element_body eng by_ value timeout s).2.1 = s := by
  unfold click_element_body
  dsimp only
  repeat' split
  all_goals rfl

theorem send_keys_body_st (eng : Engine) (by_ value text : String) (timeout : Int) (s : St) :
    (send_keys_body eng by_ value text timeout s).2.1 = s := by
  unfold send_keys_body
  dsimp only
  repeat' split
  all_goals rfl

theorem get_element_text_body_st (eng : Engine) (by_ value : String) (timeout : Int) (s : St) :
    (get_element_text_body eng by_ value timeout s).2.1 = s := by
  unfold get_element_text_body
  dsimp only
  repeat' split
  all_goals rfl

theorem hover_body_st (eng : Engine) (by_ value : String) (timeout : Int) (s : St) :
    (hover_body eng by_ value timeout s).2.1 = s := by
  unfold hover_body
  dsimp only
  repeat' split
  all_goals rfl

theorem drag_and_drop_body_st (eng : Engine) (by_ value target_by target_value : String)
    (timeout : Int) (s : St) :
    (drag_and_drop_body eng by_ value target_by target_value timeout s).2.1 = s := by
  unfold drag_and_drop_body
  dsimp only
  repeat' split
  all_goals rfl

theorem double_click_body_st (eng : Engine) (by_ value : String) (timeout : Int) (s : St) :
    (double_click_body eng by_ value timeout s).2.1 = s := by
  unfold double_click_body
  dsimp only
  repeat' split
  all_goals rfl

theorem right_click_body_st (eng : Engine) (by_ value : String) (timeout : Int) (s : St) :
    (right_click_body eng by_ value timeout s).2.1 = s := by
  unfold right_click_body
  dsimp only
  repeat' split
  all_goals rfl

theorem press_key_body_st (eng : Engine) (key : String) (s : St) :
    (press_key_body eng key s).2.1 = s := by
  unfold press_key_body
  repeat' split
  all_goals rfl

theorem upload_file_body_st (eng : Engine) (by_ value file_path : String) (timeout : Int)
    (s : St) : (upload_file_body eng by_ value file_path timeout s).2.1 = s := by
  unfold upload_file_body
  dsimp only
  repeat' split
  all_goals rfl

theorem take_screenshot_body_st (eng : Engine) (output_path : Option String) (s : St) :
    (take_screenshot_body eng output_path s).2.1 = s := by
  unfold take_screenshot_body
  repeat' split
  all_goals rfl

theorem body_st_eq (op : Op) (s : St)
    (h : (∃ eng, op = Op.closeOp eng) → False)
    (h2 : (∃ eng tNow browser headless arguments,
      op = Op.startOp eng tNow browser headless arguments) → False) :
    (bodyOf op s).2.1 = s := by
  cases op with
  | startOp eng tNow browser headless arguments => exact absurd ⟨eng, tNow, browser, headless, arguments, rfl⟩ h2
  | navigateOp eng url => exact navigate_body_st eng url s
  | findOp eng by_ value t => exact find_element_body_st eng by_ value (t.getD 10000) s
  | clickOp eng by_ value t => exact click_element_body_st eng by_ value (t.getD 10000) s
  | sendKeysOp eng by_ value text t => exact send_keys_body_st eng by_ value text (t.getD 10000) s
  | getTextOp eng by_ value t => exact get_element_text_body_st eng by_ value (t.getD 10000) s
  | hoverOp eng by_ value t => exact hover_body_st eng by_ value (t.getD 10000) s
  | dragOp eng by_ value tb tv t => exact drag_and_drop_body_st eng by_ value tb tv (t.getD 10000) s
  | doubleClickOp eng by_ value t => exact double_click_body_st eng by_ value (t.getD 10000) s
  | rightClickOp eng by_ value t => exact right_click_body_st eng by_ value (t.getD 10000) s
  | pressKeyOp eng key => exact press_key_body_st eng key s
  | uploadOp eng by_ value fp t => exact upload_file_body_st eng by_ value fp (t.getD 10000) s
  | screenshotOp eng p => exact take_screenshot_body_st eng p s
  | closeOp eng => exact absurd ⟨eng, rfl⟩ h

theorem start_browser_body_inv (eng : Engine) (tNow : Nat) (browser : String) (headless : Bool)
    (arguments : Option (List String)) (s : St) (h : Inv s) :
    Inv (start_browser_body eng tNow browser headless arguments s).2.1 := by
  unfold start_browser_body
  split
  · cases hl : eng.launchResult browser headless (arguments.getD [])
    · simpa using h
    · simp only [Inv, lookupD_insertD_self, Option.isSome_some]
  · exact h

theorem close_session_body_inv (eng : Engine) (s : St) (h : Inv s) :
    Inv (close_session_body eng s).2.1 := by
  unfold close_session_body
  repeat' split
  · exact h
  · exact h
  · exact h
  · simp [Inv]

theorem inv_dispatch (op : Op) (s : St) (h : Inv s) : Inv (dispatch op s).2.1 := by
  rw [dispatch_eq_boundary, boundary_st]
  cases op with
  | startOp eng tNow browser headless arguments =>
    exact start_browser_body_inv eng tNow browser headless arguments s h
  | closeOp eng => exact close_session_body_inv eng s h
  | navigateOp eng url => rw [show bodyOf (Op.navigateOp eng url) s = navigate_body eng url s from rfl, navigate_body_st]; exact h
  | findOp eng by_ value t => rw [show bodyOf (Op.findOp eng by_ value t) s = find_element_body eng by_ value (t.getD 10000) s from rfl, find_element_body_st]; exact h
  | clickOp eng by_ value t => rw [show bodyOf (Op.clickOp eng by_ value t) s = click_element_body eng by_ value (t.getD 10000) s from rfl, click_element_body_st]; exact h
  | sendKeysOp eng by_ value text t => rw [show bodyOf (Op.sendKeysOp eng by_ value text t) s = send_keys_body eng by_ value text (t.getD 10000) s from rfl, send_keys_body_st]; exact h
  | getTextOp eng by_ value t => rw [show bodyOf (Op.getTextOp eng by_ value t) s = get_element_text_body eng by_ value (t.getD 10000) s from rfl, get_element_text_body_st]; exact h
  | hoverOp eng by_ value t => rw [show bodyOf (Op.hoverOp eng by_ value t) s = hover_body eng by_ value (t.getD 10000) s from rfl, hover_body_st]; exact h
  | dragOp eng by_ value tb tv t => rw [show bodyOf (Op.dragOp eng by_ value tb tv t) s = drag_and_drop_body eng by_ value tb tv (t.getD 10000) s from rfl, drag_and_drop_body_st]; exact h
  | doubleClickOp eng by_ value t => rw [show bodyOf (Op.doubleClickOp eng by_ value t) s = double_click_body eng by_ value (t.getD 10000) s from rfl, double_click_body_st]; exact h
  | rightClickOp eng by_ value t => rw [show bodyOf (Op.rightClickOp eng by_ value t) s = right_click_body eng by_ value (t.getD 10000) s from rfl, right_click_body_st]; exact h
  | pressKeyOp eng key => rw [show bodyOf (Op.pressKeyOp eng key) s = press_key_body eng key s from rfl, press_key_body_st]; exact h
  | uploadOp eng by_ value fp t => rw [show bodyOf (Op.uploadOp eng by_ value fp t) s = upload_file_body eng by_ value fp (t.getD 10000) s from rfl, upload_file_body_st]; exact h
  | screenshotOp eng p => rw [show bodyOf (Op.screenshotOp eng p) s = take_screenshot_body eng p s from rfl, take_screenshot_body_st]; exact h

theorem inv_run (ops : List Op) (s : St) (h : Inv s) : Inv (run ops s) := by
  induction ops generalizing s with
  | nil => exact h
  | cons op rest ih => exact ih (dispatch op s).2.1 (inv_dispatch op s h)

theorem find_element_body_waits (eng : Engine) (by_ value : String) (timeout : Int) (s : St) :
    waitSecondsOK timeout (find_element_body eng by_ value timeout s).2.2 := by
  intro d c loc v q hq
  unfold find_element_body at hq
  dsimp only at hq
  repeat' split at hq
  all_goals simp_all

theorem click_element_body_waits (eng : Engine) (by_ value : String) (timeout : Int) (s : St) :
    waitSecondsOK timeout (click_element_body eng by_ value timeout s).2.2 := by
  intro d c loc v q hq
  unfold click_element_body at hq
  dsimp only at hq
  repeat' split at hq
  all_goals simp_all

theorem send_keys_body_waits (eng : Engine) (by_ value text : String) (timeout : Int) (s : St) :
    waitSecondsOK timeout (send_keys_body eng by_ value text timeout s).2.2 := by
  intro d c loc v q hq
  unfold send_keys_body at hq
  dsimp only at hq
  repeat' split at hq
  all_goals simp_all

theorem get_element_text_body_waits (eng : Engine) (by_ value : String) (timeout : Int)
    (s : St) : waitSecondsOK timeout (get_element_text_body eng by_ value timeout s).2.2 := by
  intro d c loc v q hq
  unfold get_element_text_body at hq
  dsimp only at hq
  repeat' split at hq
  all_goals simp_all

theorem hover_body_waits (eng : Engine) (by_ value : String) (timeout : Int) (s : St) :
    waitSecondsOK timeout (hover_body eng by_ value timeout s).2.2 := by
  intro d c loc v q hq
  unfold hover_body at hq
  dsimp only at hq
  repeat' split at hq
  all_goals simp_all

theorem drag_and_drop_body_waits (eng : Engine) (by_ value target_by target_value : String)
    (timeout : Int) (s : St) :
    waitSecondsOK timeout (drag_and_drop_body eng by_ value target_by target_value timeout s).2.2 := by
  intro d c loc v q hq
  unfold drag_and_drop_body at hq
  dsimp only at hq
  repeat' split at hq
  all_goals simp_all
  all_goals tauto

theorem double_click_body_waits (eng : Engine) (by_ value : String) (timeout : Int) (s : St) :
    waitSecondsOK timeout (double_click_body eng by_ value timeout s).2.2 := by
  intro d c loc v q hq
  unfold double_click_body at hq
  dsimp only at hq
  repeat' split at hq
  all_goals simp_all

theorem right_click_body_waits (eng : Engine) (by_ value : String) (timeout : Int) (s : St) :
    waitSecondsOK timeout (right_click_body eng by_ value timeout s).2.2 := by
  intro d c loc v q hq
  unfold right_click_body at hq
  dsimp only at hq
  repeat' split at hq
  all_goals simp_all

theorem upload_file_body_waits (eng : Engine) (by_ value file_path : String) (timeout : Int)
    (s : St) : waitSecondsOK timeout (upload_file_body eng by_ value file_path timeout s).2.2 := by
  intro d c loc v q hq
  unfold upload_file_body at hq
  dsimp only at hq
  repeat' split at hq
  all_goals simp_all

theorem cleanup_fold (eng : Engine) (l : List (String × Nat)) (acc : List EngineCall) :
    l.foldl
      (fun acc p =>
        match eng.quitResult p.2 with
        | Except.ok _ => acc ++ [EngineCall.quit p.2]
        | Except.error _ => acc ++ [EngineCall.quit p.2])
      acc
    = acc ++ l.map (fun p => EngineCall.quit p.2) := by
  induction l generalizing acc with
  | nil => simp
  | cons p rest ih =>
    simp only [List.foldl_cons, List.map_cons]
    cases hq : eng.quitResult p.2 <;> rw [ih] <;> simp

theorem hasErrHead_append (head e : String) (h5 : head.data.take 5 = "Error".data) :
    hasErrHead (head ++ e) = true := by
  have hlen : 5 ≤ head.data.length := by
    have hl := congrArg List.length h5
    have h5' : ("Error".data).length = 5 := rfl
    simp only [List.length_take, h5'] at hl
    omega
  unfold hasErrHead
  rw [String.data_append, List.take_append_of_le_length hlen, h5]
  simp

theorem errHead_marked (op : Op) (e : String) : hasErrHead (errHead op ++ e) = true := by
  cases op <;> simp only [errHead] <;> exact hasErrHead_append _ e (by decide)

theorem find_element_body_badloc (eng : Engine) (b v : String) (t : Int) (s : St) (d : Nat)
    (hdr : get_driver s = Except.ok d) (hbad : lookupD locator_map (pyLower b) = none) :
    find_element_body eng b v t s
      = (Except.error ("Unsupported locator strategy: " ++ b), s, []) := by
  unfold find_element_body
  rw [hdr]
  dsimp only
  unfold get_locator
  rw [hbad]

theorem click_element_body_badloc (eng : Engine) (b v : String) (t : Int) (s : St) (d : Nat)
    (hdr : get_driver s = Except.ok d) (hbad : lookupD locator_map (pyLower b) = none) :
    click_element_body eng b v t s
      = (Except.error ("Unsupported locator strategy: " ++ b), s, []) := by
  unfold click_element_body
  rw [hdr]
  dsimp only
  unfold get_locator
  rw [hbad]

theorem send_keys_body_badloc (eng : Engine) (b v text : String) (t : Int) (s : St) (d : Nat)
    (hdr : get_driver s = Except.ok d) (hbad : lookupD locator_map (pyLower b) = none) :
    send_keys_body eng b v text t s
      = (Except.error ("Unsupported locator strategy: " ++ b), s, []) := by
  unfold send_keys_body
  rw [hdr]
  dsimp only
  unfold get_locator
  rw [hbad]

theorem get_element_text_body_badloc (eng : Engine) (b v : String) (t : Int) (s : St) (d : Nat)
    (hdr : get_driver s = Except.ok d) (hbad : lookupD locator_map (pyLower b) = none) :
    get_element_text_body eng b v t s
      = (Except.error ("Unsupported locator strategy: " ++ b), s, []) := by
  unfold get_element_text_body
  rw [hdr]
  dsimp only
  unfold get_locator
  rw [hbad]

theorem hover_body_badloc (eng : Engine) (b v : String) (t : Int) (s : St) (d : Nat)
    (hdr : get_driver s = Except.ok d) (hbad : lookupD locator_map (pyLower b) = none) :
    hover_body eng b v t s = (Except.error ("Unsupported locator strategy: " ++ b), s, []) := by
  unfold hover_body
  rw [hdr]
  dsimp only
  unfold get_locator
  rw [hbad]

theorem drag_and_drop_body_badloc (eng : Engine) (b v tb tv : String) (t : Int) (s : St)
    (d : Nat) (hdr : get_driver s = Except.ok d)
    (hbad : lookupD locator_map (pyLower b) = none) :
    drag_and_drop_body eng b v tb tv t s
      = (Except.error ("Unsupported locator strategy: " ++ b), s, []) := by
  unfold drag_and_drop_body
  rw [hdr]
  dsimp only
  unfold get_locator
  rw [hbad]

theorem double_click_body_badloc (eng : Engine) (b v : String) (t : Int) (s : St) (d : Nat)
    (hdr : get_driver s = Except.ok d) (hbad : lookupD locator_map (pyLower b) = none) :
    double_click_body eng b v t s
      = (Except.error ("Unsupported locator strategy: " ++ b), s, []) := by
  unfold double_click_body
  rw [hdr]
  dsimp only
  unfold get_locator
  rw [hbad]

theorem right_click_body_badloc (eng : Engine) (b v : String) (t : Int) (s : St) (d : Nat)
    (hdr : get_driver s = Except.ok d) (hbad : lookupD locator_map (pyLower b) = none) :
    right_click_body eng b v t s
      = (Except.error ("Unsupported locator strategy: " ++ b), s, []) := by
  unfold right_click_body
  rw [hdr]
  dsimp only
  unfold get_locator
  rw [hbad]

theorem upload_file_body_badloc (eng : Engine) (b v fp : String) (t : Int) (s : St) (d : Nat)
    (hdr : get_driver s = Except.ok d) (hbad : lookupD locator_map (pyLower b) = none) :
    upload_file_body eng b v fp t s
      = (Except.error ("Unsupported locator strategy: " ++ b), s, []) := by
  unfold upload_file_body
  rw [hdr]
  dsimp only
  unfold get_locator
  rw [hbad]

/-- C1: every dispatcher operation is a total function from (arguments,
registry state) to a textual result — `dispatch` returns a `String` for
every operation, argument combination, engine behaviour and registry
state, so nothing raises past the boundary — and whenever the operation's
`try`-body raises, the returned string is the operation's descriptive
failure message: its `except`-clause head (which starts with "Error")
followed by the exception text; when the body succeeds, its success
message is returned verbatim. -/
theorem dispatcher_total_and_error_marked (op : Op) (s : St) :
    (∀ e, (bodyOf op s).1 = Except.error e →
      (dispatch op s).1 = errHead op ++ e ∧ hasErrHead (dispatch op s).1 = true) ∧
    (∀ m, (bodyOf op s).1 = Except.ok m → (dispatch op s).1 = m) := by
  rw [dispatch_eq_boundary]
  rcases hb : bodyOf op s with ⟨a, s2, tr⟩
  constructor
  · intro e he
    have ha : a = Except.error e := he
    subst ha
    exact ⟨rfl, errHead_marked op e⟩
  · intro m hm
    have ha : a = Except.ok m := hm
    subst ha
    rfl

/-- Witness for C1: `navigate` on the initial registry (no session) raises
`Exception("No active browser session")` internally and returns the
"Error navigating: ..." text. -/
theorem dispatcher_total_and_error_marked_witness :
    (dispatch (Op.navigateOp okEngine "https://example.com") initState).1
      = errHead (Op.navigateOp okEngine "https://example.com") ++ "No active browser session" ∧
    hasErrHead (dispatch (Op.navigateOp okEngine "https://example.com") initState).1 = true :=
  (dispatcher_total_and_error_marked (Op.navigateOp okEngine "https://example.com") initState).1
    "No active browser session" rfl

/-- C2: after any sequence of dispatcher operations from the initial empty
registry, a non-null current-session pointer is a key present in the
session mapping (`Inv`), so `get_driver` finds an entry whenever the
pointer is set. -/
theorem current_pointer_always_registered (ops : List Op) : Inv (run ops initState) :=
  inv_run ops initState (by simp [Inv, initState])

/-- C3: for every browser name outside chrome/firefox, `start_browser`
returns the validation failure message, the trace is empty (no engine
launch attempted) and the registry — mapping and current pointer — is
returned unchanged. -/
theorem unsupported_browser_rejected (eng : Engine) (tNow : Nat) (browser : String)
    (headless : Bool) (arguments : Option (List String)) (s : St)
    (h1 : browser ≠ "chrome") (h2 : browser ≠ "firefox") :
    start_browser eng tNow browser headless arguments s
      = ("Error starting browser: Unsupported browser type. Use 'chrome' or 'firefox'.", s, []) := by
  unfold start_browser start_browser_body
  rw [if_neg]
  · rfl
  · rintro (h | h)
    exacts [h1 h, h2 h]

/-- Witness for C3 at browser = "safari". -/
theorem unsupported_browser_rejected_witness :
    start_browser okEngine 5 "safari" false none initState
      = ("Error starting browser: Unsupported browser type. Use 'chrome' or 'firefox'.",
         initState, []) :=
  unsupported_browser_rejected okEngine 5 "safari" false none initState
    (by decide) (by decide)

/-- C5: for every engine behaviour (so in particular whatever `quit()`
calls fail) and every registry state, `cleanup` leaves the mapping empty
and the current pointer null, and its trace shows a `quit` attempt for
every registered session — per-session failures are swallowed and do not
stop the sweep. -/
theorem cleanup_empties_registry (eng : Engine) (s : St) :
    (cleanup eng s).1 = initState ∧
    (cleanup eng s).2 = s.drivers.map (fun p => EngineCall.quit p.2) := by
  constructor
  · rfl
  · have h := cleanup_fold eng s.drivers []
    simpa [cleanup] using h

/-- C6: from the empty registry, a successful `start_browser("chrome")`
(launch returning some driver `d`) followed immediately by a
`close_session()` whose `quit()` succeeds leaves the mapping empty and
the current pointer null. -/
theorem start_close_round_trip (eng : Engine) (tNow : Nat) (headless : Bool)
    (arguments : Option (List String)) (d : Nat)
    (hl : eng.launchResult "chrome" headless (arguments.getD []) = Except.ok d)
    (hq : eng.quitResult d = Except.ok ()) :
    (close_session eng (start_browser eng tNow "chrome" headless arguments initState).2.1).2.1
      = initState := by
  have h1 : (start_browser eng tNow "chrome" headless arguments initState).2.1
      = ⟨[(generate_session_id "chrome" tNow, d)], some (generate_session_id "chrome" tNow)⟩ := by
    unfold start_browser start_browser_body
    rw [if_pos (Or.inl rfl), hl]
    rfl
  rw [h1]
  simp [close_session, close_session_body, boundary, lookupD, hq, eraseD, initState]

/-- Witness for C6 with the all-succeeding engine at millisecond 5. -/
theorem start_close_round_trip_witness :
    (close_session okEngine
        (start_browser okEngine 5 "chrome" false none initState).2.1).2.1 = initState :=
  start_close_round_trip okEngine 5 false none 0 rfl rfl

/-- C7: when `close_session` succeeds on a registry whose only entry is the
current session (so the removal leaves the mapping empty), a second
`close_session` — any engine — returns the no-active-session failure and
leaves the registry empty with a null pointer. -/
theorem close_session_twice (eng1 eng2 : Engine) (s : St) (sid : String) (d : Nat)
    (hc : s.current = some sid) (hd : lookupD s.drivers sid = some d)
    (hq : eng1.quitResult d = Except.ok ())
    (hempty : eraseD s.drivers sid = []) :
    (close_session eng1 s).1 = "Browser session " ++ sid ++ " closed" ∧
    (close_session eng1 s).2.1 = initState ∧
    close_session eng2 (close_session eng1 s).2.1
      = ("Error closing session: " ++ "No active browser session", initState, []) := by
  have h1 : close_session eng1 s
      = ("Browser session " ++ sid ++ " closed", ⟨[], none⟩, [EngineCall.quit d]) := by
    simp [close_session, close_session_body, boundary, hc, hd, hq, hempty]
  refine ⟨by rw [h1], by rw [h1]; rfl, ?_⟩
  rw [h1]
  rfl

/-- Witness for C7: one chrome session, quit succeeds, second close fails. -/
theorem close_session_twice_witness :
    (close_session okEngine oneSessionSt).1 = "Browser session " ++ "chrome_5" ++ " closed" ∧
    (close_session okEngine oneSessionSt).2.1 = initState ∧
    close_session failEngine (close_session okEngine oneSessionSt).2.1
      = ("Error closing session: " ++ "No active browser session", initState, []) :=
  close_session_twice okEngine failEngine oneSessionSt "chrome_5" 0 rfl (by decide) rfl
    (by decide)

/-- C10: when the current session's `quit()` raises, `close_session`
returns the failure message and the registry is exactly unchanged — the
entry is not deleted and the pointer is not cleared. -/
theorem close_session_quit_fail_preserves (eng : Engine) (s : St) (sid : String) (d : Nat)
    (e : String) (hc : s.current = some sid) (hd : lookupD s.drivers sid = some d)
    (hq : eng.quitResult d = Except.error e) :
    close_session eng s = ("Error closing session: " ++ e, s, [EngineCall.quit d]) := by
  simp [close_session, close_session_body, boundary, hc, hd, hq]

/-- Witness for C10 with the engine whose `quit()` raises "boom". -/
theorem close_session_quit_fail_preserves_witness :
    close_session failEngine oneSessionSt
      = ("Error closing session: " ++ "boom", oneSessionSt, [EngineCall.quit 0]) :=
  close_session_quit_fail_preserves failEngine oneSessionSt "chrome_5" 0 "boom" rfl
    (by decide) rfl

/-- Counterexample to C9 as stated: two `start_browser("chrome")` calls in
the same millisecond (the clock returns 5 twice) both succeed and generate
the same identifier `chrome_5`, so the second creation overwrites the
first registry entry — after two creations the mapping holds one entry,
not two distinct sessions. -/
theorem session_id_collision_overwrites :
    (start_browser okEngine 5 "chrome" false none initState).1
      = "Browser started with session_id: chrome_5" ∧
    ((start_browser okEngine 5 "chrome" false none initState).2.1).drivers.length = 1 ∧
    (start_browser okEngine 5 "chrome" false none
        (start_browser okEngine 5 "chrome" false none initState).2.1).1
      = "Browser started with session_id: chrome_5" ∧
    ((start_browser okEngine 5 "chrome" false none
        (start_browser okEngine 5 "chrome" false none initState).2.1).2.1).drivers.length
      = 1 := by
  refine ⟨?_, ?_, ?_, ?_⟩ <;> decide

/-- C9 (amended): identifiers of distinct registered sessions are distinct
because the registry is a mapping; creating a session whose generated
identifier is not already a key (in particular, whenever the
browser-kind/millisecond pair is fresh) never overwrites an existing
entry: the mapping gains exactly one entry, appended. Same-millisecond
same-kind creation collides and overwrites (see the counterexample). -/
theorem fresh_session_id_adds_entry (eng : Engine) (tNow : Nat) (browser : String)
    (headless : Bool) (arguments : Option (List String)) (d : Nat) (s : St)
    (hb : browser = "chrome" ∨ browser = "firefox")
    (hl : eng.launchResult browser headless (arguments.getD []) = Except.ok d)
    (hfresh : lookupD s.drivers (generate_session_id browser tNow) = none) :
    ((start_browser eng tNow browser headless arguments s).2.1).drivers
      = s.drivers ++ [(generate_session_id browser tNow, d)] ∧
    ((start_browser eng tNow browser headless arguments s).2.1).drivers.length
      = s.drivers.length + 1 := by
  have h1 : (start_browser eng tNow browser headless arguments s).2.1
      = ⟨insertD s.drivers (generate_session_id browser tNow) d,
         some (generate_session_id browser tNow)⟩ := by
    unfold start_browser start_browser_body
    rw [if_pos hb, hl]
    rfl
  rw [h1, insertD_of_fresh _ _ _ hfresh]
  simp

/-- Witness for the amended C9: a fresh creation on the empty registry. -/
theorem fresh_session_id_adds_entry_witness :
    ((start_browser okEngine 5 "chrome" false none initState).2.1).drivers
      = initState.drivers ++ [(generate_session_id "chrome" 5, 0)] ∧
    ((start_browser okEngine 5 "chrome" false none initState).2.1).drivers.length
      = initState.drivers.length + 1 :=
  fresh_session_id_adds_entry okEngine 5 "chrome" false none 0 initState (Or.inl rfl) rfl rfl

/-- Counterexample to C4 as stated: the claim says every locator-taking
operation invoked with an unsupported strategy, while a current session
exists, fails "without performing any engine wait" — but
`drag_and_drop("id", "src", "bogus", "tgt")` with an unsupported *target*
strategy performs the source wait (one engine wait in the trace) before
`get_locator("bogus")` raises, and then returns the failure result. -/
theorem drag_target_locator_still_waits :
    lookupD locator_map (pyLower "bogus") = none ∧
    get_driver oneSessionSt = Except.ok 0 ∧
    hasErrHead (drag_and_drop okEngine "id" "src" "bogus" "tgt" 10000 oneSessionSt).1 = true ∧
    (drag_and_drop okEngine "id" "src" "bogus" "tgt" 10000 oneSessionSt).2.2
      = [EngineCall.wait 0 WaitCond.present ByLoc.id "src" (((10000 : Int) : ℚ) / 1000)] := by
  refine ⟨by decide, rfl, by decide, rfl⟩

/-- C4 (amended): a locator-taking operation invoked, while a current
session exists, with an unsupported strategy as its (source) `by` argument
returns a failure result with the registry unchanged and an empty trace —
no engine wait or element operation is performed (for `drag_and_drop` an
unsupported *target* strategy still performs the source wait first, see
the counterexample); and the resolver returns exactly the native locator
kinds of `locator_map`, keyed case-insensitively. -/
theorem unsupported_locator_rejected :
    (∀ (op : Op) (s : St) (d : Nat), isLocOp op = true → get_driver s = Except.ok d →
      lookupD locator_map (pyLower (stratOf op)) = none →
      hasErrHead (dispatch op s).1 = true ∧ (dispatch op s).2.1 = s ∧
        (dispatch op s).2.2 = []) ∧
    (∀ (str : String) (k : ByLoc),
      get_locator str = Except.ok k ↔ lookupD locator_map (pyLower str) = some k) := by
  constructor
  · intro op s d hloc hdr hbad
    cases op with
    | startOp eng tNow browser headless arguments => simp [isLocOp] at hloc
    | navigateOp eng url => simp [isLocOp] at hloc
    | pressKeyOp eng key => simp [isLocOp] at hloc
    | screenshotOp eng p => simp [isLocOp] at hloc
    | closeOp eng => simp [isLocOp] at hloc
    | findOp eng b v t =>
      simp only [stratOf] at hbad
      have hdisp : dispatch (Op.findOp eng b v t) s
          = ("Error finding element: " ++ ("Unsupported locator strategy: " ++ b), s, []) := by
        rw [dispatch_eq_boundary,
          show bodyOf (Op.findOp eng b v t) s = find_element_body eng b v (t.getD 10000) s
            from rfl,
          find_element_body_badloc eng b v (t.getD 10000) s d hdr hbad]
        rfl
      rw [hdisp]
      exact ⟨hasErrHead_append _ _ (by decide), rfl, rfl⟩
    | clickOp eng b v t =>
      simp only [stratOf] at hbad
      have hdisp : dispatch (Op.clickOp eng b v t) s
          = ("Error clicking element: " ++ ("Unsupported locator strategy: " ++ b), s, []) := by
        rw [dispatch_eq_boundary,
          show bodyOf (Op.clickOp eng b v t) s = click_element_body eng b v (t.getD 10000) s
            from rfl,
          click_element_body_badloc eng b v (t.getD 10000) s d hdr hbad]
        rfl
      rw [hdisp]
      exact ⟨hasErrHead_append _ _ (by decide), rfl, rfl⟩
    | sendKeysOp eng b v text t =>
      simp only [stratOf] at hbad
      have hdisp : dispatch (Op.sendKeysOp eng b v text t) s
          = ("Error entering text: " ++ ("Unsupported locator strategy: " ++ b), s, []) := by
        rw [dispatch_eq_boundary,
          show bodyOf (Op.sendKeysOp eng b v text t) s
              = send_keys_body eng b v text (t.getD 10000) s from rfl,
          send_keys_body_badloc eng b v text (t.getD 10000) s d hdr hbad]
        rfl
      rw [hdisp]
      exact ⟨hasErrHead_append _ _ (by decide), rfl, rfl⟩
    | getTextOp eng b v t =>
      simp only [stratOf] at hbad
      have hdisp : dispatch (Op.getTextOp eng b v t) s
          = ("Error getting element text: " ++ ("Unsupported locator strategy: " ++ b),
             s, []) := by
        rw [dispatch_eq_boundary,
          show bodyOf (Op.getTextOp eng b v t) s
              = get_element_text_body eng b v (t.getD 10000) s from rfl,
          get_element_text_body_badloc eng b v (t.getD 10000) s d hdr hbad]
        rfl
      rw [hdisp]
      exact ⟨hasErrHead_append _ _ (by decide), rfl, rfl⟩
    | hoverOp eng b v t =>
      simp only [stratOf] at hbad
      have hdisp : dispatch (Op.hoverOp eng b v t) s
          = ("Error hovering over element: " ++ ("Unsupported locator strategy: " ++ b),
             s, []) := by
        rw [dispatch_eq_boundary,
          show bodyOf (Op.hoverOp eng b v t) s = hover_body eng b v (t.getD 10000) s from rfl,
          hover_body_badloc eng b v (t.getD 10000) s d hdr hbad]
        rfl
      rw [hdisp]
      exact ⟨hasErrHead_append _ _ (by decide), rfl, rfl⟩
    | dragOp eng b v tb tv t =>
      simp only [stratOf] at hbad
      have hdisp : dispatch (Op.dragOp eng b v tb tv t) s
          = ("Error performing drag and drop: " ++ ("Unsupported locator strategy: " ++ b),
             s, []) := by
        rw [dispatch_eq_boundary,
          show bodyOf (Op.dragOp eng b v tb tv t) s
              = drag_and_drop_body eng b v tb tv (t.getD 10000) s from rfl,
          drag_and_drop_body_badloc eng b v tb tv (t.getD 10000) s d hdr hbad]
        rfl
      rw [hdisp]
      exact ⟨hasErrHead_append _ _ (by decide), rfl, rfl⟩
    | doubleClickOp eng b v t =>
      simp only [stratOf] at hbad
      have hdisp : dispatch (Op.doubleClickOp eng b v t) s
          = ("Error performing double click: " ++ ("Unsupported locator strategy: " ++ b),
             s, []) := by
        rw [dispatch_eq_boundary,
          show bodyOf (Op.doubleClickOp eng b v t) s
              = double_click_body eng b v (t.getD 10000) s from rfl,
          double_click_body_badloc eng b v (t.getD 10000) s d hdr hbad]
        rfl
      rw [hdisp]
      exact ⟨hasErrHead_append _ _ (by decide), rfl, rfl⟩
    | rightClickOp eng b v t =>
      simp only [stratOf] at hbad
      have hdisp : dispatch (Op.rightClickOp eng b v t) s
          = ("Error performing right click: " ++ ("Unsupported locator strategy: " ++ b),
             s, []) := by
        rw [dispatch_eq_boundary,
          show bodyOf (Op.rightClickOp eng b v t) s
              = right_click_body eng b v (t.getD 10000) s from rfl,
          right_click_body_badloc eng b v (t.getD 10000) s d hdr hbad]
        rfl
      rw [hdisp]
      exact ⟨hasErrHead_append _ _ (by decide), rfl, rfl⟩
    | uploadOp eng b v fp t =>
      simp only [stratOf] at hbad
      have hdisp : dispatch (Op.uploadOp eng b v fp t) s
          = ("Error uploading file: " ++ ("Unsupported locator strategy: " ++ b), s, []) := by
        rw [dispatch_eq_boundary,
          show bodyOf (Op.uploadOp eng b v fp t) s
              = upload_file_body eng b v fp (t.getD 10000) s from rfl,
          upload_file_body_badloc eng b v fp (t.getD 10000) s d hdr hbad]
        rfl
      rw [hdisp]
      exact ⟨hasErrHead_append _ _ (by decide), rfl, rfl⟩
  · intro str k
    unfold get_locator
    cases h : lookupD locator_map (pyLower str) <;> simp

/-- Witness for the amended C4: `find_element` with strategy "bogus" on a
registry with a current session. -/
theorem unsupported_locator_rejected_witness :
    hasErrHead (dispatch (Op.findOp okEngine "bogus" "x" none) oneSessionSt).1 = true ∧
    (dispatch (Op.findOp okEngine "bogus" "x" none) oneSessionSt).2.1 = oneSessionSt ∧
    (dispatch (Op.findOp okEngine "bogus" "x" none) oneSessionSt).2.2 = [] :=
  unsupported_locator_rejected.1 (Op.findOp okEngine "bogus" "x" none) oneSessionSt 0 rfl
    rfl (by decide)

/-- C8: for every timed operation, every wait recorded in the trace was
handed exactly the operation's timeout argument — interpreted in
milliseconds, defaulting to 10000 when unspecified — divided once by 1000
(`timeout_seconds = timeout / 1000`); and passing no timeout behaves
identically to passing 10000 ms. -/
theorem timed_ops_convert_ms_once :
    (∀ (op : Op) (s : St), isTimedOp op = true →
      ∀ d c loc v q, EngineCall.wait d c loc v q ∈ (dispatch op s).2.2 →
        q = (((timeoutOf op).getD 10000 : Int) : ℚ) / 1000) ∧
    (∀ (op : Op) (s : St),
      dispatch (withTimeout op none) s = dispatch (withTimeout op (some 10000)) s) := by
  constructor
  · intro op s hT d c loc v q hq
    rw [dispatch_eq_boundary, boundary_tr] at hq
    cases op with
    | startOp eng tNow browser headless arguments => simp [isTimedOp] at hT
    | navigateOp eng url => simp [isTimedOp] at hT
    | pressKeyOp eng key => simp [isTimedOp] at hT
    | screenshotOp eng p => simp [isTimedOp] at hT
    | closeOp eng => simp [isTimedOp] at hT
    | findOp eng b v' t =>
      exact find_element_body_waits eng b v' (t.getD 10000) s d c loc v q hq
    | clickOp eng b v' t =>
      exact click_element_body_waits eng b v' (t.getD 10000) s d c loc v q hq
    | sendKeysOp eng b v' text t =>
      exact send_keys_body_waits eng b v' text (t.getD 10000) s d c loc v q hq
    | getTextOp eng b v' t =>
      exact get_element_text_body_waits eng b v' (t.getD 10000) s d c loc v q hq
    | hoverOp eng b v' t =>
      exact hover_body_waits eng b v' (t.getD 10000) s d c loc v q hq
    | dragOp eng b v' tb tv t =>
      exact drag_and_drop_body_waits eng b v' tb tv (t.getD 10000) s d c loc v q hq
    | doubleClickOp eng b v' t =>
      exact double_click_body_waits eng b v' (t.getD 10000) s d c loc v q hq
    | rightClickOp eng b v' t =>
      exact right_click_body_waits eng b v' (t.getD 10000) s d c loc v q hq
    | uploadOp eng b v' fp t =>
      exact upload_file_body_waits eng b v' fp (t.getD 10000) s d c loc v q hq
  · intro op s
    cases op <;> rfl

/-- Witness for C8: `find_element` with timeout 500 ms performs its wait
with 500/1000 seconds. -/
theorem timed_ops_convert_ms_once_witness :
    EngineCall.wait 0 WaitCond.present ByLoc.id "x" (((500 : Int) : ℚ) / 1000)
      ∈ (dispatch (Op.findOp okEngine "id" "x" (some 500)) oneSessionSt).2.2 ∧
    (((500 : Int) : ℚ) / 1000)
      = (((timeoutOf (Op.findOp okEngine "id" "x" (some 500))).getD 10000 : Int) : ℚ)
          / 1000 := by
  have htr : (dispatch (Op.findOp okEngine "id" "x" (some 500)) oneSessionSt).2.2
      = [EngineCall.wait 0 WaitCond.present ByLoc.id "x" (((500 : Int) : ℚ) / 1000)] := rfl
  have hmem : EngineCall.wait 0 WaitCond.present ByLoc.id "x" (((500 : Int) : ℚ) / 1000)
      ∈ (dispatch (Op.findOp okEngine "id" "x" (some 500)) oneSessionSt).2.2 := by
    rw [htr]
    exact List.mem_singleton_self _
  exact ⟨hmem,
    timed_ops_convert_ms_once.1 (Op.findOp okEngine "id" "x" (some 500)) oneSessionSt rfl
      0 WaitCond.present ByLoc.id "x" (((500 : Int) : ℚ) / 1000) hmem⟩

end SelMCP
